import Mathlib

/-!
Shallow embedding of the convex-dev-stripe component: the Convex document
store (customers / subscriptions / payments / invoices / checkout_sessions),
the webhook upsert mutations (src/unnamed/part_000), the public queries and
mutations (src/src/component/public.ts), the event dispatcher `processEvent`
and the webhook HTTP handler registered by `registerRoutes`
(src/src/client/index.ts).

Modelling conventions:
- A Convex table is a `List` of records in insertion order; `_creationTime`
  (milliseconds since the Unix epoch, assigned by the database at insert) is
  kept only on subscriptions, the one table whose creation time the code
  reads.
- `.withIndex(...).unique()` is `uniqueBy`: zero matches give `none`, one
  match gives the record, several matches make Convex throw, modelled with
  `Except.error`.
- `ctx.db.patch(id, o)` merges the literal object `o` into the record found
  by the preceding `unique()` call: a field present in `o` is set to the
  given value, and a field explicitly present with value `undefined` is
  REMOVED from the document (Convex patch semantics); a field absent from
  `o` is kept.  An `Option` field set straight from an optional argument
  therefore models both "set" (`some`) and "remove" (`none`).
- JavaScript truthiness on optional strings (`if (x)`, `x || d`): both the
  missing value and the empty string are falsy (`strTruthy`).
- Remote Stripe API calls are an oracle record `StripeApi`; a rejected
  promise is `Except.error`.
-/

namespace ConvexStripe

/-- Stripe metadata bag: a JSON object of string keys and string values,
modelled as an association list in key order. -/
abbrev Metadata := List (String × String)

/-- JavaScript property read `m.k` on a metadata object: the value when the
key is present, `undefined` (`none`) otherwise. -/
def metaLookup (m : Metadata) (k : String) : Option String :=
  (m.find? (fun p => p.1 == k)).map (fun p => p.2)

/-- JavaScript truthiness of an optional string: `undefined`, `null` and
`""` are falsy, every other string is truthy. -/
def strTruthy : Option String → Bool
  | none => false
  | some s => s != ""

/-- JavaScript `x || d` on an optional string: `d` when `x` is falsy. -/
def jsOrStr : Option String → String → String
  | none, d => d
  | some s, d => if s == "" then d else s

/-- JavaScript `x ? x : undefined` / `x || undefined` on an optional
string: `none` when falsy, the string itself otherwise. -/
def jsOrUndefined (o : Option String) : Option String :=
  if strTruthy o then o else none

/-- JavaScript `t > w` where `t` may be `undefined`: any comparison with
`undefined` is `false`. -/
def jsGtUndef : Option Nat → Int → Bool
  | none, _ => false
  | some t, w => (t : Int) > w

-- ============================================================================
-- Data model (src/src/component/schema.ts)
-- ============================================================================

/-- Row of the `customers` table. -/
structure Customer where
  stripeCustomerId : String
  email : Option String
  name : Option String
  metadata : Option Metadata
  deriving DecidableEq, Repr

/-- Row of the `subscriptions` table.  `creationTime` is the system field
`_creationTime` in milliseconds since the Unix epoch, assigned by the
database when the row is inserted. -/
structure Subscription where
  stripeSubscriptionId : String
  stripeCustomerId : String
  status : String
  currentPeriodEnd : Int
  cancelAtPeriodEnd : Bool
  quantity : Option Int
  priceId : String
  metadata : Option Metadata
  orgId : Option String
  userId : Option String
  creationTime : Nat
  deriving DecidableEq, Repr

/-- Row of the `payments` table. -/
structure Payment where
  stripePaymentIntentId : String
  stripeCustomerId : Option String
  amount : Int
  currency : String
  status : String
  created : Int
  metadata : Option Metadata
  orgId : Option String
  userId : Option String
  deriving DecidableEq, Repr

/-- Row of the `invoices` table. -/
structure Invoice where
  stripeInvoiceId : String
  stripeCustomerId : String
  stripeSubscriptionId : Option String
  status : String
  amountDue : Int
  amountPaid : Int
  created : Int
  orgId : Option String
  userId : Option String
  deriving DecidableEq, Repr

/-- Row of the `checkout_sessions` table. -/
structure CheckoutSession where
  stripeCheckoutSessionId : String
  stripeCustomerId : Option String
  status : String
  mode : String
  metadata : Option Metadata
  deriving DecidableEq, Repr

/-- The component's document store: the five tables, each in insertion
order. -/
structure Store where
  customers : List Customer
  subscriptions : List Subscription
  payments : List Payment
  invoices : List Invoice
  checkout_sessions : List CheckoutSession
  deriving DecidableEq, Repr

-- ============================================================================
-- Database primitives
-- ============================================================================

/-- Convex `.withIndex(...).unique()`: `none` on zero matches, the record on
exactly one match; with more than one match Convex throws
("unique() query returned more than one result"). -/
def uniqueBy {α : Type} (p : α → Bool) (l : List α) : Except String (Option α) :=
  match l.filter p with
  | [] => .ok none
  | [x] => .ok (some x)
  | _ => .error "unique() query returned more than one result"

/-- Convex `ctx.db.patch` applied to the single record matching `p` (the
record found by the preceding `unique()` call): every record satisfying `p`
is replaced by `f` of it, all others are untouched, order is preserved. -/
def patchBy {α : Type} (p : α → Bool) (f : α → α) (l : List α) : List α :=
  l.map (fun x => if p x then f x else x)

-- ============================================================================
-- Internal mutations (src/unnamed/part_000)
-- ============================================================================

/-- Arguments of `handleCustomerCreated`, `handleCustomerUpdated` and
`createOrUpdateCustomer` (identical validator). -/
structure CustomerArgs where
  stripeCustomerId : String
  email : Option String
  name : Option String
  metadata : Option Metadata
  deriving DecidableEq, Repr

/-- Mutation `updateSubscriptionQuantityInternal`: patch `quantity` on the
subscription with the given ID, no-op when absent. -/
def updateSubscriptionQuantityInternal (db : Store) (stripeSubscriptionId : String)
    (quantity : Int) : Except String Store :=
  match uniqueBy (fun s => s.stripeSubscriptionId == stripeSubscriptionId) db.subscriptions with
  | .error e => .error e
  | .ok none => .ok db
  | .ok (some _) =>
    let patched := patchBy (fun s => s.stripeSubscriptionId == stripeSubscriptionId)
      (fun s => { s with quantity := some quantity }) db.subscriptions
    .ok { db with subscriptions := patched }

/-- Mutation `handleCustomerCreated`: insert when no record with the Stripe
customer ID exists (metadata defaulted to `\x7b\x7d` by `args.metadata || \x7b\x7d`),
no-op otherwise. -/
def handleCustomerCreated (db : Store) (args : CustomerArgs) : Except String Store :=
  match uniqueBy (fun c => c.stripeCustomerId == args.stripeCustomerId) db.customers with
  | .error e => .error e
  | .ok (some _) => .ok db
  | .ok none =>
    .ok { db with customers := db.customers ++ [{
      stripeCustomerId := args.stripeCustomerId
      email := args.email
      name := args.name
      metadata := some (args.metadata.getD []) }] }

/-- Mutation `handleCustomerUpdated`: when a record exists, patch
`email`, `name` and `metadata` to exactly the argument values (an absent
argument removes the stored field); no-op when absent. -/
def handleCustomerUpdated (db : Store) (args : CustomerArgs) : Except String Store :=
  match uniqueBy (fun c => c.stripeCustomerId == args.stripeCustomerId) db.customers with
  | .error e => .error e
  | .ok none => .ok db
  | .ok (some _) =>
    let patched := patchBy (fun c => c.stripeCustomerId == args.stripeCustomerId)
      (fun c => { c with
        email := args.email
        name := args.name
        metadata := args.metadata }) db.customers
    .ok { db with customers := patched }

/-- Arguments of `handleSubscriptionCreated`. -/
structure SubCreateArgs where
  stripeSubscriptionId : String
  stripeCustomerId : String
  status : String
  currentPeriodEnd : Int
  cancelAtPeriodEnd : Bool
  quantity : Option Int
  priceId : String
  metadata : Option Metadata
  deriving DecidableEq, Repr

/-- Mutation `handleSubscriptionCreated`: no-op when the key exists,
otherwise insert, extracting `orgId` / `userId` from the metadata bag
(`args.metadata || \x7b\x7d`) at this moment.  `now` is the wall clock the
database stamps into `_creationTime`. -/
def handleSubscriptionCreated (now : Nat) (db : Store) (args : SubCreateArgs) :
    Except String Store :=
  match uniqueBy (fun s => s.stripeSubscriptionId == args.stripeSubscriptionId) db.subscriptions with
  | .error e => .error e
  | .ok (some _) => .ok db
  | .ok none =>
    let metadata := args.metadata.getD []
    .ok { db with subscriptions := db.subscriptions ++ [{
      stripeSubscriptionId := args.stripeSubscriptionId
      stripeCustomerId := args.stripeCustomerId
      status := args.status
      currentPeriodEnd := args.currentPeriodEnd
      cancelAtPeriodEnd := args.cancelAtPeriodEnd
      quantity := args.quantity
      priceId := args.priceId
      metadata := some metadata
      orgId := metaLookup metadata "orgId"
      userId := metaLookup metadata "userId"
      creationTime := now }] }

/-- Arguments of `handleSubscriptionUpdated`. -/
structure SubUpdateArgs where
  stripeSubscriptionId : String
  status : String
  currentPeriodEnd : Int
  cancelAtPeriodEnd : Bool
  quantity : Option Int
  metadata : Option Metadata
  deriving DecidableEq, Repr

/-- Mutation `handleSubscriptionUpdated`: when the record exists, patch
`status`, `currentPeriodEnd`, `cancelAtPeriodEnd` and `quantity`
unconditionally, and patch `metadata` only when `args.metadata` is defined
and `orgId` / `userId` only when the extracted value is defined (the
conditional spreads in the source); no-op when absent. -/
def handleSubscriptionUpdated (db : Store) (args : SubUpdateArgs) : Except String Store :=
  match uniqueBy (fun s => s.stripeSubscriptionId == args.stripeSubscriptionId) db.subscriptions with
  | .error e => .error e
  | .ok none => .ok db
  | .ok (some _) =>
    let metadata := args.metadata.getD []
    let orgId := metaLookup metadata "orgId"
    let userId := metaLookup metadata "userId"
    let patched := patchBy (fun s => s.stripeSubscriptionId == args.stripeSubscriptionId)
      (fun s => { s with
        status := args.status
        currentPeriodEnd := args.currentPeriodEnd
        cancelAtPeriodEnd := args.cancelAtPeriodEnd
        quantity := args.quantity
        metadata := if args.metadata.isSome then some metadata else s.metadata
        orgId := if orgId.isSome then orgId else s.orgId
        userId := if userId.isSome then userId else s.userId }) db.subscriptions
    .ok { db with subscriptions := patched }

/-- Mutation `handleSubscriptionDeleted`: patch `status` to `"canceled"`
when the record exists; no-op when absent. -/
def handleSubscriptionDeleted (db : Store) (stripeSubscriptionId : String) :
    Except String Store :=
  match uniqueBy (fun s => s.stripeSubscriptionId == stripeSubscriptionId) db.subscriptions with
  | .error e => .error e
  | .ok none => .ok db
  | .ok (some _) =>
    let patched := patchBy (fun s => s.stripeSubscriptionId == stripeSubscriptionId)
      (fun s => { s with status := "canceled" }) db.subscriptions
    .ok { db with subscriptions := patched }

/-- Arguments of `handleCheckoutSessionCompleted`. -/
structure CheckoutArgs where
  stripeCheckoutSessionId : String
  stripeCustomerId : Option String
  mode : String
  metadata : Option Metadata
  deriving DecidableEq, Repr

/-- Mutation `handleCheckoutSessionCompleted`: patch `status` / customer on
an existing record, otherwise insert with status `"complete"`. -/
def handleCheckoutSessionCompleted (db : Store) (args : CheckoutArgs) :
    Except String Store :=
  match uniqueBy (fun s => s.stripeCheckoutSessionId == args.stripeCheckoutSessionId)
      db.checkout_sessions with
  | .error e => .error e
  | .ok (some _) =>
    let patched := patchBy (fun s => s.stripeCheckoutSessionId == args.stripeCheckoutSessionId)
      (fun s => { s with
        status := "complete"
        stripeCustomerId := args.stripeCustomerId }) db.checkout_sessions
    .ok { db with checkout_sessions := patched }
  | .ok none =>
    .ok { db with checkout_sessions := db.checkout_sessions ++ [{
      stripeCheckoutSessionId := args.stripeCheckoutSessionId
      stripeCustomerId := args.stripeCustomerId
      status := "complete"
      mode := args.mode
      metadata := some (args.metadata.getD []) }] }

/-- Arguments of `handleInvoiceCreated`. -/
structure InvoiceCreateArgs where
  stripeInvoiceId : String
  stripeCustomerId : String
  stripeSubscriptionId : Option String
  status : String
  amountDue : Int
  amountPaid : Int
  created : Int
  deriving DecidableEq, Repr

/-- Mutation `handleInvoiceCreated`: no-op when the key exists; otherwise,
when a (truthy) subscription reference is present, look that subscription up
to copy `orgId` / `userId`, then insert. -/
def handleInvoiceCreated (db : Store) (args : InvoiceCreateArgs) : Except String Store :=
  match uniqueBy (fun i => i.stripeInvoiceId == args.stripeInvoiceId) db.invoices with
  | .error e => .error e
  | .ok (some _) => .ok db
  | .ok none =>
    let linkage : Except String (Option String × Option String) :=
      if strTruthy args.stripeSubscriptionId then
        match uniqueBy (fun s => some s.stripeSubscriptionId == args.stripeSubscriptionId)
            db.subscriptions with
        | .error e => .error e
        | .ok none => .ok (none, none)
        | .ok (some subscription) => .ok (subscription.orgId, subscription.userId)
      else .ok (none, none)
    match linkage with
    | .error e => .error e
    | .ok (orgId, userId) =>
      .ok { db with invoices := db.invoices ++ [{
        stripeInvoiceId := args.stripeInvoiceId
        stripeCustomerId := args.stripeCustomerId
        stripeSubscriptionId := args.stripeSubscriptionId
        status := args.status
        amountDue := args.amountDue
        amountPaid := args.amountPaid
        created := args.created
        orgId := orgId
        userId := userId }] }

/-- Mutation `handleInvoicePaid`: patch `status` to `"paid"` and
`amountPaid`; no-op when the invoice is absent. -/
def handleInvoicePaid (db : Store) (stripeInvoiceId : String) (amountPaid : Int) :
    Except String Store :=
  match uniqueBy (fun i => i.stripeInvoiceId == stripeInvoiceId) db.invoices with
  | .error e => .error e
  | .ok none => .ok db
  | .ok (some _) =>
    let patched := patchBy (fun i => i.stripeInvoiceId == stripeInvoiceId)
      (fun i => { i with status := "paid", amountPaid := amountPaid }) db.invoices
    .ok { db with invoices := patched }

/-- Mutation `handleInvoicePaymentFailed`: patch `status` to `"open"`;
no-op when the invoice is absent. -/
def handleInvoicePaymentFailed (db : Store) (stripeInvoiceId : String) :
    Except String Store :=
  match uniqueBy (fun i => i.stripeInvoiceId == stripeInvoiceId) db.invoices with
  | .error e => .error e
  | .ok none => .ok db
  | .ok (some _) =>
    let patched := patchBy (fun i => i.stripeInvoiceId == stripeInvoiceId)
      (fun i => { i with status := "open" }) db.invoices
    .ok { db with invoices := patched }

/-- Arguments of `handlePaymentIntentSucceeded`. -/
structure PaymentArgs where
  stripePaymentIntentId : String
  stripeCustomerId : Option String
  amount : Int
  currency : String
  status : String
  created : Int
  metadata : Option Metadata
  deriving DecidableEq, Repr

/-- Mutation `handlePaymentIntentSucceeded`: insert when the key is new,
extracting `orgId` / `userId` from metadata; when the record exists and the
incoming event carries a (truthy) customer while the stored record's
customer is falsy, patch the customer in; otherwise no-op. -/
def handlePaymentIntentSucceeded (db : Store) (args : PaymentArgs) : Except String Store :=
  match uniqueBy (fun p => p.stripePaymentIntentId == args.stripePaymentIntentId) db.payments with
  | .error e => .error e
  | .ok none =>
    let metadata := args.metadata.getD []
    .ok { db with payments := db.payments ++ [{
      stripePaymentIntentId := args.stripePaymentIntentId
      stripeCustomerId := args.stripeCustomerId
      amount := args.amount
      currency := args.currency
      status := args.status
      created := args.created
      metadata := some metadata
      orgId := metaLookup metadata "orgId"
      userId := metaLookup metadata "userId" }] }
  | .ok (some existing) =>
    if strTruthy args.stripeCustomerId && !strTruthy existing.stripeCustomerId then
      let patched := patchBy (fun p => p.stripePaymentIntentId == args.stripePaymentIntentId)
        (fun p => { p with stripeCustomerId := args.stripeCustomerId }) db.payments
      .ok { db with payments := patched }
    else .ok db

/-- Mutation `updatePaymentCustomer`: patch the customer reference only when
the payment exists and its stored customer reference is falsy
(`payment && !payment.stripeCustomerId`); otherwise no-op. -/
def updatePaymentCustomer (db : Store) (stripePaymentIntentId : String)
    (stripeCustomerId : String) : Except String Store :=
  match uniqueBy (fun p => p.stripePaymentIntentId == stripePaymentIntentId) db.payments with
  | .error e => .error e
  | .ok none => .ok db
  | .ok (some payment) =>
    if !strTruthy payment.stripeCustomerId then
      let patched := patchBy (fun p => p.stripePaymentIntentId == stripePaymentIntentId)
        (fun p => { p with stripeCustomerId := some stripeCustomerId }) db.payments
      .ok { db with payments := patched }
    else .ok db

-- ============================================================================
-- Public queries and mutations (src/src/component/public.ts)
-- ============================================================================

/-- Shape of the objects returned by the `listSubscriptions` query: the
subscription row with the system fields destructured away
(`(\x7b _id, _creationTime, ...data \x7d) => data`).  `creationTimeJs` models the
JavaScript property `_creationTime` of the returned object: the query
removes it, so the property is absent (`none`) and reading it in JavaScript
yields `undefined`. -/
structure SubscriptionData where
  stripeSubscriptionId : String
  stripeCustomerId : String
  status : String
  currentPeriodEnd : Int
  cancelAtPeriodEnd : Bool
  quantity : Option Int
  priceId : String
  metadata : Option Metadata
  orgId : Option String
  userId : Option String
  creationTimeJs : Option Nat
  deriving DecidableEq, Repr

/-- Query `listSubscriptions`: all subscriptions of a customer, each with
the system fields (`_id`, `_creationTime`) stripped by the destructuring in
the `map`. -/
def listSubscriptions (db : Store) (stripeCustomerId : String) : List SubscriptionData :=
  (db.subscriptions.filter (fun s => s.stripeCustomerId == stripeCustomerId)).map
    (fun s => {
      stripeSubscriptionId := s.stripeSubscriptionId
      stripeCustomerId := s.stripeCustomerId
      status := s.status
      currentPeriodEnd := s.currentPeriodEnd
      cancelAtPeriodEnd := s.cancelAtPeriodEnd
      quantity := s.quantity
      priceId := s.priceId
      metadata := s.metadata
      orgId := s.orgId
      userId := s.userId
      creationTimeJs := none })

/-- Mutation `createOrUpdateCustomer`: patch `email`, `name` and `metadata`
to exactly the argument values when a record exists (an absent argument
removes the stored field), otherwise insert; returns the Stripe customer
ID. -/
def createOrUpdateCustomer (db : Store) (args : CustomerArgs) :
    Except String (Store × String) :=
  match uniqueBy (fun c => c.stripeCustomerId == args.stripeCustomerId) db.customers with
  | .error e => .error e
  | .ok (some _) =>
    let patched := patchBy (fun c => c.stripeCustomerId == args.stripeCustomerId)
      (fun c => { c with
        email := args.email
        name := args.name
        metadata := args.metadata }) db.customers
    .ok ({ db with customers := patched }, args.stripeCustomerId)
  | .ok none =>
    .ok ({ db with customers := db.customers ++ [{
      stripeCustomerId := args.stripeCustomerId
      email := args.email
      name := args.name
      metadata := args.metadata }] }, args.stripeCustomerId)

/-- Arguments of `updateSubscriptionMetadata` (`metadata` is required,
`orgId` / `userId` optional). -/
structure SubMetaArgs where
  stripeSubscriptionId : String
  metadata : Metadata
  orgId : Option String
  userId : Option String
  deriving DecidableEq, Repr

/-- Mutation `updateSubscriptionMetadata`: throws a not-found error when the
subscription is absent; otherwise patches `metadata`, `orgId` and `userId`
to exactly the argument values (an omitted optional argument is `undefined`
in the patch and removes the stored field). -/
def updateSubscriptionMetadata (db : Store) (args : SubMetaArgs) : Except String Store :=
  match uniqueBy (fun s => s.stripeSubscriptionId == args.stripeSubscriptionId) db.subscriptions with
  | .error e => .error e
  | .ok none =>
    .error ("Subscription " ++ args.stripeSubscriptionId ++ " not found in database")
  | .ok (some _) =>
    let patched := patchBy (fun s => s.stripeSubscriptionId == args.stripeSubscriptionId)
      (fun s => { s with
        metadata := some args.metadata
        orgId := args.orgId
        userId := args.userId }) db.subscriptions
    .ok { db with subscriptions := patched }

-- ============================================================================
-- Stripe event objects and remote API (src/src/client/index.ts)
-- ============================================================================

/-- The constant `RECENT_SUBSCRIPTION_WINDOW_SECONDS = 10 * 60` of the
client: the trailing window, in seconds, in which a subscription for the
same customer suppresses a `payment_intent.succeeded` record. -/
def RECENT_SUBSCRIPTION_WINDOW_SECONDS : Int := 10 * 60

/-- Stripe customer object as read by `processEvent`. -/
structure CustomerObj where
  id : String
  email : Option String
  name : Option String
  metadata : Option Metadata
  deriving DecidableEq, Repr

/-- One element of `subscription.items.data`: the fields `processEvent`
reads from the first line item.  `priceId` is `price.id`. -/
structure LineItem where
  current_period_end : Option Int
  quantity : Option Int
  priceId : String
  deriving DecidableEq, Repr

/-- Stripe subscription object as read by `processEvent` and by the
checkout-completion invoice fetch. -/
structure SubscriptionObj where
  id : String
  customer : String
  status : String
  cancel_at_period_end : Option Bool
  items : List LineItem
  metadata : Option Metadata
  latest_invoice : Option String
  deriving DecidableEq, Repr

/-- Stripe checkout-session object as read by `processEvent`. -/
structure CheckoutSessionObj where
  id : String
  customer : Option String
  mode : Option String
  metadata : Option Metadata
  payment_intent : Option String
  subscription : Option String
  deriving DecidableEq, Repr

/-- Stripe invoice object as read by `processEvent` (including the
`(invoice as any).subscription` field). -/
structure InvoiceObj where
  id : String
  customer : String
  subscription : Option String
  status : Option String
  amount_due : Int
  amount_paid : Int
  created : Int
  deriving DecidableEq, Repr

/-- Stripe payment-intent object as read by `processEvent`. -/
structure PaymentIntentObj where
  id : String
  customer : Option String
  amount : Int
  currency : String
  status : String
  created : Int
  invoice : Option String
  metadata : Option Metadata
  deriving DecidableEq, Repr

/-- The verified Stripe events `processEvent` dispatches on; every other
event type is the `unknown` variant, accepted and ignored. -/
inductive StripeEvent where
  | customerCreated (c : CustomerObj)
  | customerUpdated (c : CustomerObj)
  | subscriptionCreated (s : SubscriptionObj)
  | subscriptionUpdated (s : SubscriptionObj)
  | subscriptionDeleted (s : SubscriptionObj)
  | checkoutSessionCompleted (s : CheckoutSessionObj)
  | invoiceCreated (i : InvoiceObj)
  | invoiceFinalized (i : InvoiceObj)
  | invoicePaid (i : InvoiceObj)
  | invoicePaymentSucceeded (i : InvoiceObj)
  | invoicePaymentFailed (i : InvoiceObj)
  | paymentIntentSucceeded (p : PaymentIntentObj)
  | unknown (eventType : String)
  deriving DecidableEq, Repr

/-- The `event.type` string of an event. -/
def StripeEvent.eventType : StripeEvent → String
  | .customerCreated _ => "customer.created"
  | .customerUpdated _ => "customer.updated"
  | .subscriptionCreated _ => "customer.subscription.created"
  | .subscriptionUpdated _ => "customer.subscription.updated"
  | .subscriptionDeleted _ => "customer.subscription.deleted"
  | .checkoutSessionCompleted _ => "checkout.session.completed"
  | .invoiceCreated _ => "invoice.created"
  | .invoiceFinalized _ => "invoice.finalized"
  | .invoicePaid _ => "invoice.paid"
  | .invoicePaymentSucceeded _ => "invoice.payment_succeeded"
  | .invoicePaymentFailed _ => "invoice.payment_failed"
  | .paymentIntentSucceeded _ => "payment_intent.succeeded"
  | .unknown t => t

/-- Oracle for the remote Stripe REST calls `processEvent` makes
(`stripe.invoices.retrieve`, `stripe.subscriptions.retrieve`); a rejected
promise is an `error`. -/
structure StripeApi where
  retrieveInvoice : String → Except String InvoiceObj
  retrieveSubscription : String → Except String SubscriptionObj

-- ============================================================================
-- Event dispatch (processEvent, src/src/client/index.ts)
-- ============================================================================

/-- The `checkout.session.completed` subscription-mode enrichment inside the
`try` block: retrieve the subscription, and when its `latest_invoice` is
truthy retrieve that invoice and create an invoice record
(`status: invoice.status || "paid"`). -/
def checkoutFetchInvoice (stripe : StripeApi) (db : Store) (subscriptionId : String) :
    Except String Store :=
  match stripe.retrieveSubscription subscriptionId with
  | .error e => .error e
  | .ok subscription =>
    if strTruthy subscription.latest_invoice then
      match stripe.retrieveInvoice (subscription.latest_invoice.getD "") with
      | .error e => .error e
      | .ok invoice =>
        handleInvoiceCreated db {
          stripeInvoiceId := invoice.id
          stripeCustomerId := invoice.customer
          stripeSubscriptionId := some subscription.id
          status := jsOrStr invoice.status "paid"
          amountDue := invoice.amount_due
          amountPaid := invoice.amount_paid
          created := invoice.created }
    else .ok db

/-- The tail of the `payment_intent.succeeded` branch after the
invoice-subscription guard: the recent-subscription check over
`listSubscriptions` followed by `handlePaymentIntentSucceeded`.
`recentWindowStart` is `Date.now() / 1000 - RECENT_SUBSCRIPTION_WINDOW_SECONDS`
(`now` in milliseconds; for integer timestamps the floored division decides
`>` exactly as the JavaScript float division does), and the find predicate
is `sub._creationTime > recentWindowStart` on the objects returned by
`listSubscriptions`. -/
def paymentIntentAfterInvoiceGuard (now : Nat) (db : Store) (p : PaymentIntentObj) :
    Except String Store :=
  let fire := handlePaymentIntentSucceeded db {
    stripePaymentIntentId := p.id
    stripeCustomerId := jsOrUndefined p.customer
    amount := p.amount
    currency := p.currency
    status := p.status
    created := p.created
    metadata := some (p.metadata.getD []) }
  if strTruthy p.customer then
    let recentSubscriptions := listSubscriptions db (p.customer.getD "")
    let recentWindowStart : Int := (now : Int) / 1000 - RECENT_SUBSCRIPTION_WINDOW_SECONDS
    match recentSubscriptions.find? (fun sub => jsGtUndef sub.creationTimeJs recentWindowStart) with
    | some _ => .ok db
    | none => fire
  else fire

/-- The event dispatcher `processEvent`: routes a verified event to the
matching mutation(s).  `now` is the dispatch wall clock in milliseconds
(`Date.now()` and the `_creationTime` the database assigns). -/
def processEvent (stripe : StripeApi) (now : Nat) (db : Store) (event : StripeEvent) :
    Except String Store :=
  match event with
  | .customerCreated c =>
    handleCustomerCreated db {
      stripeCustomerId := c.id
      email := jsOrUndefined c.email
      name := jsOrUndefined c.name
      metadata := c.metadata }
  | .customerUpdated c =>
    handleCustomerUpdated db {
      stripeCustomerId := c.id
      email := jsOrUndefined c.email
      name := jsOrUndefined c.name
      metadata := c.metadata }
  | .subscriptionCreated s =>
    handleSubscriptionCreated now db {
      stripeSubscriptionId := s.id
      stripeCustomerId := s.customer
      status := s.status
      currentPeriodEnd := (s.items.head?.bind LineItem.current_period_end).getD 0
      cancelAtPeriodEnd := s.cancel_at_period_end.getD false
      quantity := some ((s.items.head?.bind LineItem.quantity).getD 1)
      priceId := jsOrStr (s.items.head?.map LineItem.priceId) ""
      metadata := some (s.metadata.getD []) }
  | .subscriptionUpdated s =>
    handleSubscriptionUpdated db {
      stripeSubscriptionId := s.id
      status := s.status
      currentPeriodEnd := (s.items.head?.bind LineItem.current_period_end).getD 0
      cancelAtPeriodEnd := s.cancel_at_period_end.getD false
      quantity := some ((s.items.head?.bind LineItem.quantity).getD 1)
      metadata := some (s.metadata.getD []) }
  | .subscriptionDeleted s =>
    handleSubscriptionDeleted db s.id
  | .checkoutSessionCompleted sess =>
    match handleCheckoutSessionCompleted db {
        stripeCheckoutSessionId := sess.id
        stripeCustomerId := jsOrUndefined sess.customer
        mode := jsOrStr sess.mode "payment"
        metadata := sess.metadata } with
    | .error e => .error e
    | .ok db1 =>
      let afterBackfill :=
        if sess.mode == some "payment" && strTruthy sess.customer &&
            strTruthy sess.payment_intent then
          updatePaymentCustomer db1 (sess.payment_intent.getD "") (sess.customer.getD "")
        else .ok db1
      match afterBackfill with
      | .error e => .error e
      | .ok db2 =>
        if sess.mode == some "subscription" && strTruthy sess.subscription then
          match checkoutFetchInvoice stripe db2 (sess.subscription.getD "") with
          | .ok db3 => .ok db3
          | .error _ => .ok db2
        else .ok db2
  | .invoiceCreated i =>
    handleInvoiceCreated db {
      stripeInvoiceId := i.id
      stripeCustomerId := i.customer
      stripeSubscriptionId := i.subscription
      status := jsOrStr i.status "open"
      amountDue := i.amount_due
      amountPaid := i.amount_paid
      created := i.created }
  | .invoiceFinalized i =>
    handleInvoiceCreated db {
      stripeInvoiceId := i.id
      stripeCustomerId := i.customer
      stripeSubscriptionId := i.subscription
      status := jsOrStr i.status "open"
      amountDue := i.amount_due
      amountPaid := i.amount_paid
      created := i.created }
  | .invoicePaid i =>
    handleInvoicePaid db i.id i.amount_paid
  | .invoicePaymentSucceeded i =>
    handleInvoicePaid db i.id i.amount_paid
  | .invoicePaymentFailed i =>
    handleInvoicePaymentFailed db i.id
  | .paymentIntentSucceeded p =>
    if strTruthy p.invoice then
      match stripe.retrieveInvoice (p.invoice.getD "") with
      | .ok invoice =>
        if strTruthy invoice.subscription then .ok db
        else paymentIntentAfterInvoiceGuard now db p
      | .error _ => paymentIntentAfterInvoiceGuard now db p
    else paymentIntentAfterInvoiceGuard now db p
  | .unknown _ => .ok db

-- ============================================================================
-- Webhook endpoint (registerRoutes, src/src/client/index.ts)
-- ============================================================================

/-- HTTP response of the webhook route. -/
structure WebhookResponse where
  status : Nat
  body : String
  deriving DecidableEq, Repr

/-- The configuration the webhook route reads: the resolved
`config?.STRIPE_WEBHOOK_SECRET || process.env.STRIPE_WEBHOOK_SECRET` and
`config?.STRIPE_SECRET_KEY || process.env.STRIPE_SECRET_KEY` (an unset
variable or empty string is falsy), the optional generic hook `onEvent` and
the per-event-type hooks `events`. -/
structure WebhookConfig where
  webhookSecret : Option String
  apiKey : Option String
  onEvent : Option (StripeEvent → Except String Unit)
  eventHandlers : String → Option (StripeEvent → Except String Unit)

/-- An inbound webhook request: the `stripe-signature` header (if present)
and the raw text body. -/
structure WebhookRequest where
  signatureHeader : Option String
  body : String

/-- Default processing plus the optional hooks, in source order: the
dispatcher, then the generic `onEvent` hook, then the per-event-type hook;
the first exception aborts the chain. -/
def dispatchWithHooks (cfg : WebhookConfig) (stripe : StripeApi) (now : Nat)
    (db : Store) (event : StripeEvent) : Except String Store :=
  match processEvent stripe now db event with
  | .error e => .error e
  | .ok db1 =>
    match (match cfg.onEvent with
           | some h => h event
           | none => .ok ()) with
    | .error e => .error e
    | .ok _ =>
      match (match cfg.eventHandlers event.eventType with
             | some h => h event
             | none => .ok ()) with
      | .error e => .error e
      | .ok _ => .ok db1

/-- The HTTP action `registerRoutes` installs on the webhook path:
check the signing secret, the signature header and the API key, verify the
signature against the raw body (`verify` is the
`stripe.webhooks.constructEventAsync` oracle: it returns the parsed event or
throws), dispatch with hooks, and acknowledge with
`200 \x7b"received":true\x7d`; gate failures short-circuit to 400/500. -/
def webhookHandler (cfg : WebhookConfig) (stripe : StripeApi) (now : Nat) (db : Store)
    (verify : String → String → String → Except String StripeEvent)
    (req : WebhookRequest) : WebhookResponse :=
  if !strTruthy cfg.webhookSecret then
    { status := 500, body := "Webhook secret not configured" }
  else if !strTruthy req.signatureHeader then
    { status := 400, body := "No signature provided" }
  else if !strTruthy cfg.apiKey then
    { status := 500, body := "Stripe secret key not configured" }
  else
    match verify req.body (req.signatureHeader.getD "") (cfg.webhookSecret.getD "") with
    | .error err =>
      { status := 400, body := "Webhook signature verification failed: " ++ err }
    | .ok event =>
      match dispatchWithHooks cfg stripe now db event with
      | .error _ => { status := 500, body := "Error processing webhook" }
      | .ok _ => { status := 200, body := "\x7b\"received\":true\x7d" }

-- ============================================================================
-- Store well-formedness and generic query lemmas
-- ============================================================================

/-- The key invariant of the data model: within each table the
provider-assigned natural key is unique. -/
def Store.WF (db : Store) : Prop :=
  (db.customers.map Customer.stripeCustomerId).Nodup ∧
  (db.subscriptions.map Subscription.stripeSubscriptionId).Nodup ∧
  (db.payments.map Payment.stripePaymentIntentId).Nodup ∧
  (db.invoices.map Invoice.stripeInvoiceId).Nodup ∧
  (db.checkout_sessions.map CheckoutSession.stripeCheckoutSessionId).Nodup

instance (db : Store) : Decidable db.WF := by
  unfold Store.WF
  infer_instance

/-- In a table whose keys are pairwise distinct, a key-determined filter
keeps zero or one record. -/
theorem nodup_filter_key {α : Type} (key : α → String) {l : List α}
    (hn : (l.map key).Nodup) (p : α → Bool)
    (hp : ∀ x y, p x = true → p y = true → key x = key y) :
    l.filter p = [] ∨ ∃ x, x ∈ l ∧ p x = true ∧ l.filter p = [x] := by
  induction l with
  | nil => exact Or.inl rfl
  | cons a t ih =>
    rw [List.map_cons, List.nodup_cons] at hn
    obtain ⟨ha, ht⟩ := hn
    by_cases hpa : p a = true
    · right
      have htf : t.filter p = [] := by
        rw [List.filter_eq_nil_iff]
        intro y hy hpy
        have hk : key a = key y := hp a y hpa hpy
        exact ha (hk ▸ List.mem_map_of_mem key hy)
      exact ⟨a, List.mem_cons_self a t, hpa,
        by rw [List.filter_cons_of_pos hpa, htf]⟩
    · have hfc : (a :: t).filter p = t.filter p :=
        List.filter_cons_of_neg (by simpa using hpa)
      rcases ih ht with hnil | ⟨x, hm, hpx, hfx⟩
      · exact Or.inl (hfc.trans hnil)
      · exact Or.inr ⟨x, List.mem_cons_of_mem a hm, hpx, hfc.trans hfx⟩

/-- A singleton filter result is the only member satisfying the
predicate. -/
theorem eq_of_filter_single {α : Type} {p : α → Bool} {l : List α} {x : α}
    (hf : l.filter p = [x]) : ∀ y ∈ l, p y = true → y = x := by
  intro y hy hpy
  have hmem : y ∈ l.filter p := List.mem_filter.mpr ⟨hy, hpy⟩
  rw [hf] at hmem
  simpa using hmem

/-- The unique record a singleton filter returns is a member and satisfies
the predicate. -/
theorem mem_of_filter_single {α : Type} {p : α → Bool} {l : List α} {x : α}
    (hf : l.filter p = [x]) : x ∈ l ∧ p x = true := by
  have hmem : x ∈ l.filter p := by rw [hf]; exact List.mem_cons_self x []
  exact ⟨List.mem_filter.mp hmem |>.1, List.mem_filter.mp hmem |>.2⟩

/-- Equality of `Except` results is decidable when both components are. -/
instance {ε α : Type} [DecidableEq ε] [DecidableEq α] : DecidableEq (Except ε α) := fun a b =>
  match a, b with
  | .error e, .error e' =>
    if h : e = e' then .isTrue (by rw [h]) else .isFalse (fun hc => h (Except.error.inj hc))
  | .ok x, .ok x' =>
    if h : x = x' then .isTrue (by rw [h]) else .isFalse (fun hc => h (Except.ok.inj hc))
  | .error _, .ok _ => .isFalse (fun hc => Except.noConfusion hc)
  | .ok _, .error _ => .isFalse (fun hc => Except.noConfusion hc)

/-- Filtering by a key after patching by the same key commutes to patching
the filter result, provided the patch keeps the key. -/
theorem filter_patchBy_key {α : Type} (key : α → String) (k : String) (f : α → α)
    (hk : ∀ x, key (f x) = key x) (l : List α) :
    (patchBy (fun x => key x == k) f l).filter (fun x => key x == k)
      = (l.filter (fun x => key x == k)).map f := by
  induction l with
  | nil => rfl
  | cons a t ih =>
    simp only [patchBy, List.map_cons] at ih ⊢
    by_cases ha : (key a == k) = true
    · rw [if_pos ha]
      have h1 : (key (f a) == k) = true := by rw [hk]; exact ha
      simp [List.filter_cons, h1, ha] at ih ⊢
      exact ih
    · rw [if_neg ha]
      have ha' : (key a == k) = false := by simpa using ha
      simp [List.filter_cons, ha'] at ih ⊢
      exact ih

-- ============================================================================
-- C7: subscription delete patches only the status field
-- ============================================================================

/-- C7: the subscription-delete (cancel) handler patches only the status
field of the record with the given ID, setting it to `"canceled"`, and
leaves every other field of that record and every other table unchanged. -/
theorem c7_subscription_delete_patches_only_status
    (db db' : Store) (subId : String)
    (h : handleSubscriptionDeleted db subId = .ok db') :
    db'.customers = db.customers ∧
    db'.payments = db.payments ∧
    db'.invoices = db.invoices ∧
    db'.checkout_sessions = db.checkout_sessions ∧
    db'.subscriptions = db.subscriptions.map (fun s =>
      if s.stripeSubscriptionId == subId then { s with status := "canceled" } else s) := by
  unfold handleSubscriptionDeleted uniqueBy at h
  cases hf : db.subscriptions.filter (fun s => s.stripeSubscriptionId == subId) with
  | nil =>
    rw [hf] at h
    simp only [Except.ok.injEq] at h
    subst h
    refine ⟨rfl, rfl, rfl, rfl, ?_⟩
    have hid : db.subscriptions.map (fun s =>
        if s.stripeSubscriptionId == subId then { s with status := "canceled" } else s)
        = db.subscriptions.map id := by
      apply List.map_congr_left
      intro s hs
      have hns := List.filter_eq_nil_iff.mp hf s hs
      simp [hns]
    rw [hid, List.map_id]
  | cons x xs =>
    cases xs with
    | nil =>
      rw [hf] at h
      simp only [Except.ok.injEq] at h
      subst h
      exact ⟨rfl, rfl, rfl, rfl, rfl⟩
    | cons y ys =>
      rw [hf] at h
      cases h

/-- C7 witness data: one subscription with every optional field set. -/
def sampleSub : Subscription where
  stripeSubscriptionId := "sub_1"
  stripeCustomerId := "cus_1"
  status := "active"
  currentPeriodEnd := 1735689600
  cancelAtPeriodEnd := false
  quantity := some 3
  priceId := "price_1"
  metadata := some [("orgId", "org_1"), ("userId", "user_1")]
  orgId := some "org_1"
  userId := some "user_1"
  creationTime := 1700000000000

/-- C7 witness store. -/
def c7Store : Store where
  customers := []
  subscriptions := [sampleSub]
  payments := []
  invoices := []
  checkout_sessions := []

/-- C7 witness: cancelling the concrete subscription flips only its status. -/
theorem c7_witness :
    ({ c7Store with subscriptions := [{ sampleSub with status := "canceled" }] } : Store).customers
        = c7Store.customers ∧
    ({ c7Store with subscriptions := [{ sampleSub with status := "canceled" }] } : Store).payments
        = c7Store.payments ∧
    ({ c7Store with subscriptions := [{ sampleSub with status := "canceled" }] } : Store).invoices
        = c7Store.invoices ∧
    ({ c7Store with subscriptions := [{ sampleSub with status := "canceled" }] } : Store).checkout_sessions
        = c7Store.checkout_sessions ∧
    ({ c7Store with subscriptions := [{ sampleSub with status := "canceled" }] } : Store).subscriptions
        = c7Store.subscriptions.map (fun s =>
            if s.stripeSubscriptionId == "sub_1" then { s with status := "canceled" } else s) :=
  c7_subscription_delete_patches_only_status c7Store
    { c7Store with subscriptions := [{ sampleSub with status := "canceled" }] }
    "sub_1" (by decide)

-- ============================================================================
-- C5: update-class handlers on a missing key are silent no-ops
-- ============================================================================

/-- C5: each update-class handler (customer update, subscription update,
invoice paid, invoice payment-failed) applied to a key with no record in
the store returns normally, leaves the store unchanged, and inserts
nothing. -/
theorem c5_update_missing_key_is_noop
    (db : Store) (ca : CustomerArgs) (sa : SubUpdateArgs)
    (invId : String) (amountPaid : Int) :
    ((∀ c ∈ db.customers, c.stripeCustomerId ≠ ca.stripeCustomerId) →
      handleCustomerUpdated db ca = .ok db) ∧
    ((∀ s ∈ db.subscriptions, s.stripeSubscriptionId ≠ sa.stripeSubscriptionId) →
      handleSubscriptionUpdated db sa = .ok db) ∧
    ((∀ i ∈ db.invoices, i.stripeInvoiceId ≠ invId) →
      handleInvoicePaid db invId amountPaid = .ok db) ∧
    ((∀ i ∈ db.invoices, i.stripeInvoiceId ≠ invId) →
      handleInvoicePaymentFailed db invId = .ok db) := by
  refine ⟨?_, ?_, ?_, ?_⟩
  · intro habs
    have hf : db.customers.filter (fun c => c.stripeCustomerId == ca.stripeCustomerId) = [] := by
      rw [List.filter_eq_nil_iff]
      intro c hc
      simpa using habs c hc
    unfold handleCustomerUpdated uniqueBy
    rw [hf]
  · intro habs
    have hf : db.subscriptions.filter
        (fun s => s.stripeSubscriptionId == sa.stripeSubscriptionId) = [] := by
      rw [List.filter_eq_nil_iff]
      intro s hs
      simpa using habs s hs
    unfold handleSubscriptionUpdated uniqueBy
    rw [hf]
  · intro habs
    have hf : db.invoices.filter (fun i => i.stripeInvoiceId == invId) = [] := by
      rw [List.filter_eq_nil_iff]
      intro i hi
      simpa using habs i hi
    unfold handleInvoicePaid uniqueBy
    rw [hf]
  · intro habs
    have hf : db.invoices.filter (fun i => i.stripeInvoiceId == invId) = [] := by
      rw [List.filter_eq_nil_iff]
      intro i hi
      simpa using habs i hi
    unfold handleInvoicePaymentFailed uniqueBy
    rw [hf]

/-- C5 witness: on a store holding only unrelated records, all four
update-class handlers leave the store untouched. -/
theorem c5_witness :
    handleCustomerUpdated c7Store
        { stripeCustomerId := "cus_missing", email := none, name := none, metadata := none }
      = .ok c7Store ∧
    handleSubscriptionUpdated c7Store
        { stripeSubscriptionId := "sub_missing", status := "active",
          currentPeriodEnd := 0, cancelAtPeriodEnd := false, quantity := none,
          metadata := none }
      = .ok c7Store ∧
    handleInvoicePaid c7Store "in_missing" 777 = .ok c7Store ∧
    handleInvoicePaymentFailed c7Store "in_missing" = .ok c7Store := by
  have h := c5_update_missing_key_is_noop c7Store
    { stripeCustomerId := "cus_missing", email := none, name := none, metadata := none }
    { stripeSubscriptionId := "sub_missing", status := "active",
      currentPeriodEnd := 0, cancelAtPeriodEnd := false, quantity := none,
      metadata := none }
    "in_missing" 777
  exact ⟨h.1 (by decide), h.2.1 (by decide), h.2.2.1 (by decide), h.2.2.2 (by decide)⟩

-- ============================================================================
-- C6: payment intents tied to a subscription invoice are skipped
-- ============================================================================

/-- C6: when a `payment_intent.succeeded` event references an invoice and
the remote invoice lookup succeeds with an invoice linked to a
subscription, dispatch skips the payment handler and leaves the store
unchanged; when the lookup fails, processing proceeds exactly as if the
payment intent carried no invoice reference at all. -/
theorem c6_invoice_subscription_guard
    (stripe : StripeApi) (now : Nat) (db : Store) (p : PaymentIntentObj)
    (hinv : strTruthy p.invoice = true) :
    (∀ inv, stripe.retrieveInvoice (p.invoice.getD "") = .ok inv →
      strTruthy inv.subscription = true →
      processEvent stripe now db (.paymentIntentSucceeded p) = .ok db) ∧
    (∀ e, stripe.retrieveInvoice (p.invoice.getD "") = .error e →
      processEvent stripe now db (.paymentIntentSucceeded p) =
        processEvent stripe now db (.paymentIntentSucceeded { p with invoice := none })) := by
  constructor
  · intro inv hret hsub
    simp [processEvent, hinv, hret, hsub]
  · intro e hret
    simp [processEvent, hinv, hret, strTruthy, paymentIntentAfterInvoiceGuard]

/-- C6 witness invoice: linked to subscription `sub_1`. -/
def c6Invoice : InvoiceObj where
  id := "in_1"
  customer := "cus_1"
  subscription := some "sub_1"
  status := some "paid"
  amount_due := 999
  amount_paid := 999
  created := 1700000000

/-- C6 witness oracle: the invoice of `pi_sub` is linked to a
subscription, any other lookup rejects. -/
def c6Api : StripeApi where
  retrieveInvoice := fun invId =>
    if invId == "in_1" then .ok c6Invoice else .error "No such invoice"
  retrieveSubscription := fun _ => .error "No such subscription"

/-- C6 witness payment intent: references invoice `in_1`. -/
def c6Intent : PaymentIntentObj where
  id := "pi_sub"
  customer := some "cus_1"
  amount := 999
  currency := "usd"
  status := "succeeded"
  created := 1700000000
  invoice := some "in_1"
  metadata := some []

/-- C6 witness payment intent referencing a missing invoice. -/
def c6IntentBad : PaymentIntentObj where
  id := "pi_sub"
  customer := some "cus_1"
  amount := 999
  currency := "usd"
  status := "succeeded"
  created := 1700000000
  invoice := some "in_404"
  metadata := some []

/-- C6 witness: the concrete subscription payment intent leaves the empty
store unchanged, and a failing lookup behaves like an invoice-free
intent. -/
theorem c6_witness :
    processEvent c6Api 1700000000000
        { customers := [], subscriptions := [], payments := [], invoices := [],
          checkout_sessions := [] } (.paymentIntentSucceeded c6Intent) =
      .ok { customers := [], subscriptions := [], payments := [], invoices := [],
            checkout_sessions := [] } ∧
    processEvent c6Api 1700000000000
        { customers := [], subscriptions := [], payments := [], invoices := [],
          checkout_sessions := [] } (.paymentIntentSucceeded c6IntentBad) =
      processEvent c6Api 1700000000000
        { customers := [], subscriptions := [], payments := [], invoices := [],
          checkout_sessions := [] } (.paymentIntentSucceeded { c6IntentBad with invoice := none }) := by
  constructor
  · exact (c6_invoice_subscription_guard c6Api 1700000000000
      { customers := [], subscriptions := [], payments := [], invoices := [],
        checkout_sessions := [] } c6Intent (by decide)).1 c6Invoice (by decide) (by decide)
  · exact (c6_invoice_subscription_guard c6Api 1700000000000
      { customers := [], subscriptions := [], payments := [], invoices := [],
        checkout_sessions := [] } c6IntentBad (by decide)).2 "No such invoice" (by decide)

-- ============================================================================
-- C10: customer updates set email/name/metadata unconditionally
-- ============================================================================

/-- C10: the customer-update handler and the `createOrUpdateCustomer`
mutation patch `email`, `name` and `metadata` of an existing record to
exactly the incoming argument values: an absent argument removes the stored
field (`none`) instead of preserving it. -/
theorem c10_customer_update_sets_fields_unconditionally
    (db db' db'' : Store) (args : CustomerArgs) (ret : String) :
    (handleCustomerUpdated db args = .ok db' →
      db'.customers = db.customers.map (fun c =>
        if c.stripeCustomerId == args.stripeCustomerId then
          { c with email := args.email, name := args.name, metadata := args.metadata }
        else c)) ∧
    (createOrUpdateCustomer db args = .ok (db'', ret) →
      (∃ c ∈ db.customers, c.stripeCustomerId = args.stripeCustomerId) →
      db''.customers = db.customers.map (fun c =>
        if c.stripeCustomerId == args.stripeCustomerId then
          { c with email := args.email, name := args.name, metadata := args.metadata }
        else c)) := by
  constructor
  · intro h
    unfold handleCustomerUpdated uniqueBy at h
    cases hf : db.customers.filter (fun c => c.stripeCustomerId == args.stripeCustomerId) with
    | nil =>
      rw [hf] at h
      simp only [Except.ok.injEq] at h
      subst h
      have hid : db.customers.map (fun c =>
          if c.stripeCustomerId == args.stripeCustomerId then
            { c with email := args.email, name := args.name, metadata := args.metadata }
          else c) = db.customers.map id := by
        apply List.map_congr_left
        intro c hc
        have hnc := List.filter_eq_nil_iff.mp hf c hc
        simp [hnc]
      rw [hid, List.map_id]
    | cons x xs =>
      cases xs with
      | nil =>
        rw [hf] at h
        simp only [Except.ok.injEq] at h
        subst h
        rfl
      | cons y ys =>
        rw [hf] at h
        cases h
  · intro h hex
    unfold createOrUpdateCustomer uniqueBy at h
    cases hf : db.customers.filter (fun c => c.stripeCustomerId == args.stripeCustomerId) with
    | nil =>
      exfalso
      obtain ⟨c, hc, hck⟩ := hex
      have hnc := List.filter_eq_nil_iff.mp hf c hc
      simp [hck] at hnc
    | cons x xs =>
      cases xs with
      | nil =>
        rw [hf] at h
        simp only [Except.ok.injEq, Prod.mk.injEq] at h
        rw [← h.1]
        rfl
      | cons y ys =>
        rw [hf] at h
        cases h

/-- C10 witness customer: every patchable field initially set. -/
def c10Customer : Customer where
  stripeCustomerId := "cus_1"
  email := some "a@example.com"
  name := some "Ada"
  metadata := some [("tier", "gold")]

/-- C10 witness store. -/
def c10Store : Store where
  customers := [c10Customer]
  subscriptions := []
  payments := []
  invoices := []
  checkout_sessions := []

/-- C10 witness: updating with all optional arguments absent removes the
stored `email`, `name` and `metadata` fields. -/
theorem c10_witness :
    ({ c10Store with customers :=
        [{ c10Customer with email := none, name := none, metadata := none }] } : Store).customers
      = c10Store.customers.map (fun c =>
          if c.stripeCustomerId == "cus_1" then
            { c with email := none, name := none, metadata := none }
          else c) :=
  (c10_customer_update_sets_fields_unconditionally c10Store
      { c10Store with customers :=
        [{ c10Customer with email := none, name := none, metadata := none }] }
      c10Store { stripeCustomerId := "cus_1", email := none, name := none, metadata := none }
      "cus_1").1 (by decide)

-- ============================================================================
-- C2: linkage fields under subscription updates
-- ============================================================================

/-- C2 counterexample input: an explicit metadata update that supplies
neither `orgId` nor `userId`. -/
def c2Args : SubMetaArgs where
  stripeSubscriptionId := "sub_1"
  metadata := [("plan", "pro")]
  orgId := none
  userId := none

/-- C2 counterexample: the store holds subscription `sub_1` with
`orgId = "org_1"` and `userId = "user_1"`; calling
`updateSubscriptionMetadata` without supplying `orgId` / `userId` REMOVES
both stored values instead of leaving them unchanged, refuting the claim
for the public mutation. -/
theorem c2_counterexample_metadata_update_clears_linkage :
    c7Store.subscriptions.map Subscription.orgId = [some "org_1"] ∧
    c7Store.subscriptions.map Subscription.userId = [some "user_1"] ∧
    updateSubscriptionMetadata c7Store c2Args =
      .ok { c7Store with subscriptions := [{ sampleSub with metadata := some [("plan", "pro")], orgId := none, userId := none }] } := by
  refine ⟨rfl, rfl, ?_⟩
  decide

/-- C2 (amended): the webhook subscription-update handler leaves stored
`orgId` / `userId` unchanged whenever the incoming metadata does not carry
the key (including an absent metadata argument) and overwrites them when it
does; the `updateSubscriptionMetadata` mutation instead patches `metadata`,
`orgId` and `userId` unconditionally to its arguments, so an omitted
optional argument removes the stored value. -/
theorem c2_amended_linkage_update_semantics
    (db db' dbm : Store) (args : SubUpdateArgs) (margs : SubMetaArgs) :
    (handleSubscriptionUpdated db args = .ok db' →
      (metaLookup (args.metadata.getD []) "orgId" = none →
        db'.subscriptions.map Subscription.orgId
          = db.subscriptions.map Subscription.orgId) ∧
      (metaLookup (args.metadata.getD []) "userId" = none →
        db'.subscriptions.map Subscription.userId
          = db.subscriptions.map Subscription.userId) ∧
      (∀ o, metaLookup (args.metadata.getD []) "orgId" = some o →
        ∀ s' ∈ db'.subscriptions,
          s'.stripeSubscriptionId = args.stripeSubscriptionId → s'.orgId = some o) ∧
      (∀ u, metaLookup (args.metadata.getD []) "userId" = some u →
        ∀ s' ∈ db'.subscriptions,
          s'.stripeSubscriptionId = args.stripeSubscriptionId → s'.userId = some u)) ∧
    (updateSubscriptionMetadata db margs = .ok dbm →
      ∀ s' ∈ dbm.subscriptions,
        s'.stripeSubscriptionId = margs.stripeSubscriptionId →
          s'.metadata = some margs.metadata ∧
          s'.orgId = margs.orgId ∧ s'.userId = margs.userId) := by
  constructor
  · intro h
    unfold handleSubscriptionUpdated uniqueBy at h
    cases hf : db.subscriptions.filter
        (fun s => s.stripeSubscriptionId == args.stripeSubscriptionId) with
    | nil =>
      rw [hf] at h
      simp only [Except.ok.injEq] at h
      subst h
      refine ⟨fun _ => rfl, fun _ => rfl, ?_, ?_⟩
      · intro o _ s' hs' hk
        exfalso
        have hns := List.filter_eq_nil_iff.mp hf s' hs'
        simp [hk] at hns
      · intro u _ s' hs' hk
        exfalso
        have hns := List.filter_eq_nil_iff.mp hf s' hs'
        simp [hk] at hns
    | cons x xs =>
      cases xs with
      | nil =>
        rw [hf] at h
        simp only [Except.ok.injEq] at h
        subst h
        refine ⟨?_, ?_, ?_, ?_⟩
        · intro hnone
          simp only [patchBy, List.map_map]
          apply List.map_congr_left
          intro s _
          by_cases hp : (s.stripeSubscriptionId == args.stripeSubscriptionId) = true
          · simp [Function.comp, hp, hnone]
          · simp [Function.comp, hp]
        · intro hnone
          simp only [patchBy, List.map_map]
          apply List.map_congr_left
          intro s _
          by_cases hp : (s.stripeSubscriptionId == args.stripeSubscriptionId) = true
          · simp [Function.comp, hp, hnone]
          · simp [Function.comp, hp]
        · intro o ho s' hs' hk
          simp only [patchBy, List.mem_map] at hs'
          obtain ⟨s, _, rfl⟩ := hs'
          by_cases hp : (s.stripeSubscriptionId == args.stripeSubscriptionId) = true
          · simp [hp, ho]
          · rw [if_neg hp] at hk ⊢
            exact absurd (by simp [hk]) hp
        · intro u hu s' hs' hk
          simp only [patchBy, List.mem_map] at hs'
          obtain ⟨s, _, rfl⟩ := hs'
          by_cases hp : (s.stripeSubscriptionId == args.stripeSubscriptionId) = true
          · simp [hp, hu]
          · rw [if_neg hp] at hk ⊢
            exact absurd (by simp [hk]) hp
      | cons y ys =>
        rw [hf] at h
        cases h
  · intro h s' hs' hk
    unfold updateSubscriptionMetadata uniqueBy at h
    cases hf : db.subscriptions.filter
        (fun s => s.stripeSubscriptionId == margs.stripeSubscriptionId) with
    | nil =>
      rw [hf] at h
      cases h
    | cons x xs =>
      cases xs with
      | nil =>
        rw [hf] at h
        simp only [Except.ok.injEq] at h
        subst h
        simp only [patchBy, List.mem_map] at hs'
        obtain ⟨s, _, rfl⟩ := hs'
        by_cases hp : (s.stripeSubscriptionId == margs.stripeSubscriptionId) = true
        · simp [hp]
        · rw [if_neg hp] at hk ⊢
          exact absurd (by simp [hk]) hp
      | cons y ys =>
        rw [hf] at h
        cases h

/-- C2 witness update arguments: a webhook-style update whose metadata is
absent. -/
def c2UpdArgs : SubUpdateArgs where
  stripeSubscriptionId := "sub_1"
  status := "past_due"
  currentPeriodEnd := 1767225600
  cancelAtPeriodEnd := true
  quantity := some 2
  metadata := none

/-- C2 witness result store: the patch `c2UpdArgs` performs on
`c7Store`. -/
def c2Updated : Store :=
  { c7Store with subscriptions := [{ sampleSub with
      status := "past_due", currentPeriodEnd := 1767225600,
      cancelAtPeriodEnd := true, quantity := some 2 }] }

/-- C2 witness: the webhook update with absent metadata leaves the stored
`orgId` column unchanged. -/
theorem c2_witness :
    c2Updated.subscriptions.map Subscription.orgId
      = c7Store.subscriptions.map Subscription.orgId :=
  ((c2_amended_linkage_update_semantics c7Store c2Updated c7Store c2UpdArgs c2Args).1
    (by decide)).1 rfl

-- ============================================================================
-- C3: a payment's customer reference is monotonic
-- ============================================================================

/-- The payment record `handlePaymentIntentSucceeded` inserts when the
payment-intent key is new (named here for reuse in proofs). -/
def insertedPayment (args : PaymentArgs) : Payment where
  stripePaymentIntentId := args.stripePaymentIntentId
  stripeCustomerId := args.stripeCustomerId
  amount := args.amount
  currency := args.currency
  status := args.status
  created := args.created
  metadata := some (args.metadata.getD [])
  orgId := metaLookup (args.metadata.getD []) "orgId"
  userId := metaLookup (args.metadata.getD []) "userId"

/-- C3: under both payment operations (the customer backfill mutation and
the payment-intent-succeeded handler) every existing payment record whose
customer reference is non-empty is left entirely untouched: the operations
at most append new records or fill a currently empty customer reference,
never clear or overwrite a non-empty one. -/
theorem c3_payment_customer_monotonic
    (db db' : Store) (piId cusId : String) (pArgs : PaymentArgs) :
    (updatePaymentCustomer db piId cusId = .ok db' →
      ∃ g, db'.payments = db.payments.map g ∧
        ∀ p ∈ db.payments, strTruthy p.stripeCustomerId = true → g p = p) ∧
    (handlePaymentIntentSucceeded db pArgs = .ok db' →
      ∃ g rest, db'.payments = db.payments.map g ++ rest ∧
        ∀ p ∈ db.payments, strTruthy p.stripeCustomerId = true → g p = p) := by
  constructor
  · intro h
    unfold updatePaymentCustomer uniqueBy at h
    cases hf : db.payments.filter (fun p => p.stripePaymentIntentId == piId) with
    | nil =>
      rw [hf] at h
      simp only [Except.ok.injEq] at h
      subst h
      exact ⟨id, by simp, fun p _ _ => rfl⟩
    | cons x xs =>
      cases xs with
      | nil =>
        rw [hf] at h
        cases hb : strTruthy x.stripeCustomerId with
        | false =>
          simp only [hb, Bool.not_false, eq_self_iff_true, if_true,
            Except.ok.injEq] at h
          subst h
          refine ⟨fun p => if p.stripePaymentIntentId == piId
            then { p with stripeCustomerId := some cusId } else p, rfl, ?_⟩
          intro p hp htr
          by_cases hpp : (p.stripePaymentIntentId == piId) = true
          · exfalso
            have hpx : p = x := eq_of_filter_single hf p hp hpp
            rw [hpx, hb] at htr
            cases htr
          · simp [hpp]
        | true =>
          simp only [hb, Bool.not_true, Bool.false_eq_true, if_false,
            Except.ok.injEq] at h
          subst h
          exact ⟨id, by simp, fun p _ _ => rfl⟩
      | cons y ys =>
        rw [hf] at h
        cases h
  · intro h
    unfold handlePaymentIntentSucceeded uniqueBy at h
    cases hf : db.payments.filter
        (fun p => p.stripePaymentIntentId == pArgs.stripePaymentIntentId) with
    | nil =>
      rw [hf] at h
      simp only [Except.ok.injEq] at h
      subst h
      exact ⟨id, [insertedPayment pArgs], by simp [insertedPayment], fun p _ _ => rfl⟩
    | cons x xs =>
      cases xs with
      | nil =>
        rw [hf] at h
        cases hb : strTruthy pArgs.stripeCustomerId && !strTruthy x.stripeCustomerId with
        | false =>
          simp only [hb, Bool.false_eq_true, if_false, Except.ok.injEq] at h
          subst h
          exact ⟨id, [], by simp, fun p _ _ => rfl⟩
        | true =>
          simp only [hb, eq_self_iff_true, if_true, Except.ok.injEq] at h
          subst h
          refine ⟨fun p => if p.stripePaymentIntentId == pArgs.stripePaymentIntentId
            then { p with stripeCustomerId := pArgs.stripeCustomerId } else p,
            [], by simp [patchBy], ?_⟩
          intro p hp htr
          by_cases hpp : (p.stripePaymentIntentId == pArgs.stripePaymentIntentId) = true
          · exfalso
            have hpx : p = x := eq_of_filter_single hf p hp hpp
            have hxf : strTruthy x.stripeCustomerId = false := by
              cases hsx : strTruthy x.stripeCustomerId with
              | false => rfl
              | true => rw [hsx] at hb; simp at hb
            rw [hpx, hxf] at htr
            cases htr
          · simp [hpp]
      | cons y ys =>
        rw [hf] at h
        cases h

/-- C3 witness payment: customer reference already set. -/
def c3Payment : Payment where
  stripePaymentIntentId := "pi_1"
  stripeCustomerId := some "cus_keep"
  amount := 5000
  currency := "usd"
  status := "succeeded"
  created := 1700000000
  metadata := some []
  orgId := none
  userId := none

/-- C3 witness store. -/
def c3Store : Store where
  customers := []
  subscriptions := []
  payments := [c3Payment]
  invoices := []
  checkout_sessions := []

/-- C3 witness: backfilling a different customer onto the concrete payment
whose reference is already set leaves every payment record untouched. -/
theorem c3_witness :
    ∃ g, c3Store.payments = c3Store.payments.map g ∧
      ∀ p ∈ c3Store.payments, strTruthy p.stripeCustomerId = true → g p = p :=
  (c3_payment_customer_monotonic c3Store c3Store "pi_1" "cus_other"
    { stripePaymentIntentId := "pi_1", stripeCustomerId := some "cus_other",
      amount := 5000, currency := "usd", status := "succeeded",
      created := 1700000000, metadata := some [] }).1 (by decide)

-- ============================================================================
-- C9: subscription create reads the first line item with defaults
-- ============================================================================

/-- C9: dispatching `customer.subscription.created` for a fresh key stores
one new record whose `currentPeriodEnd` and `quantity` come from the first
subscription line item, defaulting to `0` and `1` when the line-item value
is absent, and whose `orgId` / `userId` are extracted from the event
metadata; in particular an absent line-item quantity yields a stored
`quantity = 1`. -/
theorem c9_subscription_created_line_item_defaults
    (stripe : StripeApi) (now : Nat) (db db' : Store) (s : SubscriptionObj)
    (habs : ∀ r ∈ db.subscriptions, r.stripeSubscriptionId ≠ s.id)
    (h : processEvent stripe now db (.subscriptionCreated s) = .ok db') :
    ∃ r, db'.subscriptions = db.subscriptions ++ [r] ∧
      r.stripeSubscriptionId = s.id ∧
      r.currentPeriodEnd = (s.items.head?.bind LineItem.current_period_end).getD 0 ∧
      r.quantity = some ((s.items.head?.bind LineItem.quantity).getD 1) ∧
      r.orgId = metaLookup (s.metadata.getD []) "orgId" ∧
      r.userId = metaLookup (s.metadata.getD []) "userId" ∧
      (s.items.head?.bind LineItem.quantity = none → r.quantity = some 1) := by
  have hf : db.subscriptions.filter (fun r => r.stripeSubscriptionId == s.id) = [] := by
    rw [List.filter_eq_nil_iff]
    intro r hr
    simpa using habs r hr
  simp only [processEvent, handleSubscriptionCreated, uniqueBy] at h
  rw [hf] at h
  simp only [Except.ok.injEq] at h
  subst h
  refine ⟨_, rfl, rfl, rfl, rfl, rfl, rfl, ?_⟩
  intro hq
  simp [hq]

/-- C9 witness event: metadata carries `orgId` / `userId`, the single line
item has no quantity. -/
def c9Event : SubscriptionObj where
  id := "sub_9"
  customer := "cus_9"
  status := "active"
  cancel_at_period_end := some false
  items := [{ current_period_end := some 1767225600, quantity := none, priceId := "price_9" }]
  metadata := some [("orgId", "org_1"), ("userId", "user_1")]
  latest_invoice := none

/-- The empty store. -/
def emptyStore : Store where
  customers := []
  subscriptions := []
  payments := []
  invoices := []
  checkout_sessions := []

/-- The record the C9 witness event ends up storing. -/
def c9Sub : Subscription where
  stripeSubscriptionId := "sub_9"
  stripeCustomerId := "cus_9"
  status := "active"
  currentPeriodEnd := 1767225600
  cancelAtPeriodEnd := false
  quantity := some 1
  priceId := "price_9"
  metadata := some [("orgId", "org_1"), ("userId", "user_1")]
  orgId := some "org_1"
  userId := some "user_1"
  creationTime := 1700000000000

/-- C9 witness: on the empty store the concrete created event stores one
record with `quantity = 1` and `orgId = "org_1"`. -/
theorem c9_witness :
    ∃ r, ({ emptyStore with subscriptions := [c9Sub] } : Store).subscriptions
        = emptyStore.subscriptions ++ [r] ∧
      r.quantity = some 1 ∧ r.orgId = some "org_1" := by
  obtain ⟨r, hr, _, _, hq, ho, _, _⟩ :=
    c9_subscription_created_line_item_defaults c6Api 1700000000000 emptyStore
      { emptyStore with subscriptions := [c9Sub] } c9Event
      (by intro r hr; cases hr) (by decide)
  exact ⟨r, hr, by rw [hq]; decide, by rw [ho]; decide⟩

-- ============================================================================
-- C4: create handlers are idempotent and non-destructive
-- ============================================================================

/-- The customer record `handleCustomerCreated` inserts for fresh keys. -/
def insertedCustomer (args : CustomerArgs) : Customer where
  stripeCustomerId := args.stripeCustomerId
  email := args.email
  name := args.name
  metadata := some (args.metadata.getD [])

/-- The subscription record `handleSubscriptionCreated` inserts for fresh
keys. -/
def insertedSubscription (now : Nat) (args : SubCreateArgs) : Subscription where
  stripeSubscriptionId := args.stripeSubscriptionId
  stripeCustomerId := args.stripeCustomerId
  status := args.status
  currentPeriodEnd := args.currentPeriodEnd
  cancelAtPeriodEnd := args.cancelAtPeriodEnd
  quantity := args.quantity
  priceId := args.priceId
  metadata := some (args.metadata.getD [])
  orgId := metaLookup (args.metadata.getD []) "orgId"
  userId := metaLookup (args.metadata.getD []) "userId"
  creationTime := now

/-- The invoice record `handleInvoiceCreated` inserts for fresh keys, given
the linkage fields copied from the parent subscription. -/
def insertedInvoice (args : InvoiceCreateArgs) (orgId userId : Option String) : Invoice where
  stripeInvoiceId := args.stripeInvoiceId
  stripeCustomerId := args.stripeCustomerId
  stripeSubscriptionId := args.stripeSubscriptionId
  status := args.status
  amountDue := args.amountDue
  amountPaid := args.amountPaid
  created := args.created
  orgId := orgId
  userId := userId

/-- C4: on any well-formed store, applying each create handler twice with
the same arguments succeeds, leaves exactly one record for the
provider-assigned key, and the second application returns the first
application's store unchanged. -/
theorem c4_create_handlers_idempotent
    (now now2 : Nat) (db : Store) (ca : CustomerArgs) (sa : SubCreateArgs)
    (ia : InvoiceCreateArgs) (pa : PaymentArgs) (hWF : db.WF) :
    (∃ db1, handleCustomerCreated db ca = .ok db1 ∧
      handleCustomerCreated db1 ca = .ok db1 ∧
      (db1.customers.filter (fun c => c.stripeCustomerId == ca.stripeCustomerId)).length = 1) ∧
    (∃ db1, handleSubscriptionCreated now db sa = .ok db1 ∧
      handleSubscriptionCreated now2 db1 sa = .ok db1 ∧
      (db1.subscriptions.filter
        (fun s => s.stripeSubscriptionId == sa.stripeSubscriptionId)).length = 1) ∧
    (∃ db1, handleInvoiceCreated db ia = .ok db1 ∧
      handleInvoiceCreated db1 ia = .ok db1 ∧
      (db1.invoices.filter (fun i => i.stripeInvoiceId == ia.stripeInvoiceId)).length = 1) ∧
    (∃ db1, handlePaymentIntentSucceeded db pa = .ok db1 ∧
      handlePaymentIntentSucceeded db1 pa = .ok db1 ∧
      (db1.payments.filter
        (fun p => p.stripePaymentIntentId == pa.stripePaymentIntentId)).length = 1) := by
  obtain ⟨hcn, hsn, hpn, hin, _⟩ := hWF
  refine ⟨?_, ?_, ?_, ?_⟩
  · -- customers
    rcases nodup_filter_key Customer.stripeCustomerId hcn
        (fun c => c.stripeCustomerId == ca.stripeCustomerId)
        (fun x y hx hy => by simp only [beq_iff_eq] at hx hy; rw [hx, hy]) with
      hf | ⟨x, hx, hpx, hf⟩
    · refine ⟨{ db with customers := db.customers ++ [insertedCustomer ca] }, ?_, ?_, ?_⟩
      · simp [handleCustomerCreated, uniqueBy, hf, insertedCustomer]
      · simp [handleCustomerCreated, uniqueBy, List.filter_append, hf, insertedCustomer]
      · simp [List.filter_append, hf, insertedCustomer]
    · refine ⟨db, ?_, ?_, ?_⟩
      · simp [handleCustomerCreated, uniqueBy, hf]
      · simp [handleCustomerCreated, uniqueBy, hf]
      · rw [hf]; rfl
  · -- subscriptions
    rcases nodup_filter_key Subscription.stripeSubscriptionId hsn
        (fun s => s.stripeSubscriptionId == sa.stripeSubscriptionId)
        (fun x y hx hy => by simp only [beq_iff_eq] at hx hy; rw [hx, hy]) with
      hf | ⟨x, hx, hpx, hf⟩
    · refine ⟨{ db with subscriptions := db.subscriptions ++ [insertedSubscription now sa] },
        ?_, ?_, ?_⟩
      · simp [handleSubscriptionCreated, uniqueBy, hf, insertedSubscription]
      · simp [handleSubscriptionCreated, uniqueBy, List.filter_append, hf, insertedSubscription]
      · simp [List.filter_append, hf, insertedSubscription]
    · refine ⟨db, ?_, ?_, ?_⟩
      · simp [handleSubscriptionCreated, uniqueBy, hf]
      · simp [handleSubscriptionCreated, uniqueBy, hf]
      · rw [hf]; rfl
  · -- invoices
    rcases nodup_filter_key Invoice.stripeInvoiceId hin
        (fun i => i.stripeInvoiceId == ia.stripeInvoiceId)
        (fun x y hx hy => by simp only [beq_iff_eq] at hx hy; rw [hx, hy]) with
      hf | ⟨x, hx, hpx, hf⟩
    · by_cases hst : strTruthy ia.stripeSubscriptionId = true
      · rcases nodup_filter_key Subscription.stripeSubscriptionId hsn
            (fun s => some s.stripeSubscriptionId == ia.stripeSubscriptionId)
            (fun x y hx hy => by
              simp only [beq_iff_eq] at hx hy
              exact Option.some.inj (hx.trans hy.symm)) with
          hsf | ⟨sx, hsx, hspx, hsf⟩
        · refine ⟨{ db with invoices := db.invoices ++ [insertedInvoice ia none none] },
            ?_, ?_, ?_⟩
          · simp [handleInvoiceCreated, uniqueBy, hf, hst, hsf, insertedInvoice]
          · simp [handleInvoiceCreated, uniqueBy, List.filter_append, hf, insertedInvoice]
          · simp [List.filter_append, hf, insertedInvoice]
        · refine ⟨{ db with invoices :=
              db.invoices ++ [insertedInvoice ia sx.orgId sx.userId] }, ?_, ?_, ?_⟩
          · simp [handleInvoiceCreated, uniqueBy, hf, hst, hsf, insertedInvoice]
          · simp [handleInvoiceCreated, uniqueBy, List.filter_append, hf, insertedInvoice]
          · simp [List.filter_append, hf, insertedInvoice]
      · refine ⟨{ db with invoices := db.invoices ++ [insertedInvoice ia none none] },
          ?_, ?_, ?_⟩
        · simp [handleInvoiceCreated, uniqueBy, hf, hst, insertedInvoice]
        · simp [handleInvoiceCreated, uniqueBy, List.filter_append, hf, insertedInvoice]
        · simp [List.filter_append, hf, insertedInvoice]
    · refine ⟨db, ?_, ?_, ?_⟩
      · simp [handleInvoiceCreated, uniqueBy, hf]
      · simp [handleInvoiceCreated, uniqueBy, hf]
      · rw [hf]; rfl
  · -- payments
    rcases nodup_filter_key Payment.stripePaymentIntentId hpn
        (fun p => p.stripePaymentIntentId == pa.stripePaymentIntentId)
        (fun x y hx hy => by simp only [beq_iff_eq] at hx hy; rw [hx, hy]) with
      hf | ⟨x, hx, hpx, hf⟩
    · refine ⟨{ db with payments := db.payments ++ [insertedPayment pa] }, ?_, ?_, ?_⟩
      · simp [handlePaymentIntentSucceeded, uniqueBy, hf, insertedPayment]
      · simp [handlePaymentIntentSucceeded, uniqueBy, List.filter_append, hf,
          insertedPayment, Bool.and_not_self]
      · simp [List.filter_append, hf, insertedPayment]
    · cases hb : strTruthy pa.stripeCustomerId && !strTruthy x.stripeCustomerId with
      | false =>
        refine ⟨db, ?_, ?_, ?_⟩
        · simp [handlePaymentIntentSucceeded, uniqueBy, hf, hb]
        · simp [handlePaymentIntentSucceeded, uniqueBy, hf, hb]
        · rw [hf]; rfl
      | true =>
        have hfp := filter_patchBy_key Payment.stripePaymentIntentId
          pa.stripePaymentIntentId
          (fun p => { p with stripeCustomerId := pa.stripeCustomerId })
          (fun p => rfl) db.payments
        rw [hf] at hfp
        have hTa : strTruthy pa.stripeCustomerId = true := by
          cases hta : strTruthy pa.stripeCustomerId with
          | true => rfl
          | false => rw [hta] at hb; simp at hb
        refine ⟨{ db with payments := patchBy (fun p => p.stripePaymentIntentId == pa.stripePaymentIntentId) (fun p => { p with stripeCustomerId := pa.stripeCustomerId }) db.payments },
          ?_, ?_, ?_⟩
        · simp [handlePaymentIntentSucceeded, uniqueBy, hf, hb]
        · simp [handlePaymentIntentSucceeded, uniqueBy, hfp, hTa]
        · simp [hfp]

/-- C4 witness: on the well-formed store `c7Store` the four create handlers
are idempotent for concrete fresh keys. -/
theorem c4_witness :
    (∃ db1, handleCustomerCreated c7Store
        { stripeCustomerId := "cus_w", email := none, name := none, metadata := none } = .ok db1 ∧
      handleCustomerCreated db1
        { stripeCustomerId := "cus_w", email := none, name := none, metadata := none } = .ok db1 ∧
      (db1.customers.filter (fun c => c.stripeCustomerId == "cus_w")).length = 1) ∧
    (∃ db1, handleSubscriptionCreated 1700000001000 c7Store
        { stripeSubscriptionId := "sub_w", stripeCustomerId := "cus_w", status := "active",
          currentPeriodEnd := 0, cancelAtPeriodEnd := false, quantity := none,
          priceId := "price_w", metadata := none } = .ok db1 ∧
      handleSubscriptionCreated 1700000002000 db1
        { stripeSubscriptionId := "sub_w", stripeCustomerId := "cus_w", status := "active",
          currentPeriodEnd := 0, cancelAtPeriodEnd := false, quantity := none,
          priceId := "price_w", metadata := none } = .ok db1 ∧
      (db1.subscriptions.filter (fun s => s.stripeSubscriptionId == "sub_w")).length = 1) ∧
    (∃ db1, handleInvoiceCreated c7Store
        { stripeInvoiceId := "in_w", stripeCustomerId := "cus_w",
          stripeSubscriptionId := some "sub_1", status := "open", amountDue := 100,
          amountPaid := 0, created := 1700000000 } = .ok db1 ∧
      handleInvoiceCreated db1
        { stripeInvoiceId := "in_w", stripeCustomerId := "cus_w",
          stripeSubscriptionId := some "sub_1", status := "open", amountDue := 100,
          amountPaid := 0, created := 1700000000 } = .ok db1 ∧
      (db1.invoices.filter (fun i => i.stripeInvoiceId == "in_w")).length = 1) ∧
    (∃ db1, handlePaymentIntentSucceeded c7Store
        { stripePaymentIntentId := "pi_w", stripeCustomerId := none, amount := 100,
          currency := "usd", status := "succeeded", created := 1700000000,
          metadata := none } = .ok db1 ∧
      handlePaymentIntentSucceeded db1
        { stripePaymentIntentId := "pi_w", stripeCustomerId := none, amount := 100,
          currency := "usd", status := "succeeded", created := 1700000000,
          metadata := none } = .ok db1 ∧
      (db1.payments.filter (fun p => p.stripePaymentIntentId == "pi_w")).length = 1) :=
  c4_create_handlers_idempotent 1700000001000 1700000002000 c7Store
    { stripeCustomerId := "cus_w", email := none, name := none, metadata := none }
    { stripeSubscriptionId := "sub_w", stripeCustomerId := "cus_w", status := "active",
      currentPeriodEnd := 0, cancelAtPeriodEnd := false, quantity := none,
      priceId := "price_w", metadata := none }
    { stripeInvoiceId := "in_w", stripeCustomerId := "cus_w",
      stripeSubscriptionId := some "sub_1", status := "open", amountDue := 100,
      amountPaid := 0, created := 1700000000 }
    { stripePaymentIntentId := "pi_w", stripeCustomerId := none, amount := 100,
      currency := "usd", status := "succeeded", created := 1700000000, metadata := none }
    (by constructor <;> simp [Store.WF, c7Store])

-- ============================================================================
-- C8: webhook endpoint response codes
-- ============================================================================

/-- C8: the webhook route responds 200 with body `\x7b"received":true\x7d` exactly
when the signing secret is configured, the signature header is present, the
API key is configured, verification succeeds on the raw body, and dispatch
plus the optional hooks complete without exception; it responds 400 when
the signature header is missing (secret configured) or verification fails,
and 500 when the signing secret or API key is unconfigured or an exception
escapes dispatch or the hooks. -/
theorem c8_webhook_response_codes
    (cfg : WebhookConfig) (stripe : StripeApi) (now : Nat) (db : Store)
    (verify : String → String → String → Except String StripeEvent)
    (req : WebhookRequest) :
    ((webhookHandler cfg stripe now db verify req).status = 200 ↔
      strTruthy cfg.webhookSecret = true ∧ strTruthy req.signatureHeader = true ∧
      strTruthy cfg.apiKey = true ∧
      ∃ event db1,
        verify req.body (req.signatureHeader.getD "") (cfg.webhookSecret.getD "") = .ok event ∧
        dispatchWithHooks cfg stripe now db event = .ok db1) ∧
    ((webhookHandler cfg stripe now db verify req).status = 200 →
      (webhookHandler cfg stripe now db verify req).body = "\x7b\"received\":true\x7d") ∧
    (strTruthy cfg.webhookSecret = false →
      (webhookHandler cfg stripe now db verify req).status = 500) ∧
    (strTruthy cfg.webhookSecret = true → strTruthy req.signatureHeader = false →
      (webhookHandler cfg stripe now db verify req).status = 400) ∧
    (strTruthy cfg.webhookSecret = true → strTruthy req.signatureHeader = true →
      strTruthy cfg.apiKey = false →
      (webhookHandler cfg stripe now db verify req).status = 500) ∧
    (∀ e, strTruthy cfg.webhookSecret = true → strTruthy req.signatureHeader = true →
      strTruthy cfg.apiKey = true →
      verify req.body (req.signatureHeader.getD "") (cfg.webhookSecret.getD "") = .error e →
      (webhookHandler cfg stripe now db verify req).status = 400) ∧
    (∀ event e, strTruthy cfg.webhookSecret = true → strTruthy req.signatureHeader = true →
      strTruthy cfg.apiKey = true →
      verify req.body (req.signatureHeader.getD "") (cfg.webhookSecret.getD "") = .ok event →
      dispatchWithHooks cfg stripe now db event = .error e →
      (webhookHandler cfg stripe now db verify req).status = 500) := by
  cases hsec : strTruthy cfg.webhookSecret with
  | false =>
    refine ⟨?_, ?_, ?_, ?_, ?_, ?_, ?_⟩ <;>
      simp [webhookHandler, hsec]
  | true =>
    cases hsig : strTruthy req.signatureHeader with
    | false =>
      refine ⟨?_, ?_, ?_, ?_, ?_, ?_, ?_⟩ <;>
        simp [webhookHandler, hsec, hsig]
    | true =>
      cases hkey : strTruthy cfg.apiKey with
      | false =>
        refine ⟨?_, ?_, ?_, ?_, ?_, ?_, ?_⟩ <;>
          simp [webhookHandler, hsec, hsig, hkey]
      | true =>
        cases hv : verify req.body (req.signatureHeader.getD "") (cfg.webhookSecret.getD "") with
        | error e =>
          refine ⟨?_, ?_, ?_, ?_, ?_, ?_, ?_⟩ <;>
            simp [webhookHandler, hsec, hsig, hkey, hv]
        | ok event =>
          cases hd : dispatchWithHooks cfg stripe now db event with
          | error e =>
            refine ⟨?_, ?_, ?_, ?_, ?_, ?_, ?_⟩ <;>
              simp [webhookHandler, hsec, hsig, hkey, hv, hd]
          | ok db1 =>
            refine ⟨?_, ?_, ?_, ?_, ?_, ?_, ?_⟩ <;>
              simp [webhookHandler, hsec, hsig, hkey, hv, hd]
            intro event' e hev
            rw [← hev, hd]
            simp

/-- C8 witness configuration: both secrets configured, no hooks. -/
def c8Cfg : WebhookConfig where
  webhookSecret := some "whsec_test"
  apiKey := some "sk_test"
  onEvent := none
  eventHandlers := fun _ => none

/-- C8 witness verifier: accepts exactly the signature `"sig_ok"` with the
configured secret and yields an unknown-type event. -/
def c8Verify (body sig secret : String) : Except String StripeEvent :=
  if sig == "sig_ok" && secret == "whsec_test" && body == "payload" then
    .ok (.unknown "some.future.event")
  else .error "signature mismatch"

/-- C8 witness: a correctly signed request is acknowledged with 200 and the
JSON acknowledgment body; the same request without a signature header gets
400. -/
theorem c8_witness :
    (webhookHandler c8Cfg c6Api 1700000000000 emptyStore c8Verify
        { signatureHeader := some "sig_ok", body := "payload" }).status = 200 ∧
    (webhookHandler c8Cfg c6Api 1700000000000 emptyStore c8Verify
        { signatureHeader := some "sig_ok", body := "payload" }).body
      = "\x7b\"received\":true\x7d" ∧
    (webhookHandler c8Cfg c6Api 1700000000000 emptyStore c8Verify
        { signatureHeader := none, body := "payload" }).status = 400 := by
  have hgood := c8_webhook_response_codes c8Cfg c6Api 1700000000000 emptyStore c8Verify
    { signatureHeader := some "sig_ok", body := "payload" }
  have hbad := c8_webhook_response_codes c8Cfg c6Api 1700000000000 emptyStore c8Verify
    { signatureHeader := none, body := "payload" }
  have h200 : (webhookHandler c8Cfg c6Api 1700000000000 emptyStore c8Verify
      { signatureHeader := some "sig_ok", body := "payload" }).status = 200 :=
    hgood.1.mpr ⟨by decide, by decide, by decide,
      .unknown "some.future.event", emptyStore, by decide, by decide⟩
  exact ⟨h200, hgood.2.1 h200, hbad.2.2.2.1 (by decide) (by decide)⟩

-- ============================================================================
-- C1: the recent-subscription guard never fires
-- ============================================================================

/-- C1 oracle: no remote calls are needed (the event has no invoice). -/
def c1Api : StripeApi where
  retrieveInvoice := fun _ => .error "unused"
  retrieveSubscription := fun _ => .error "unused"

/-- C1 dispatch time in milliseconds. -/
def c1Now : Nat := 1700000010000

/-- C1 subscription: created for customer `cus_1` ten seconds before the
dispatch time. -/
def c1Sub : Subscription where
  stripeSubscriptionId := "sub_1"
  stripeCustomerId := "cus_1"
  status := "active"
  currentPeriodEnd := 1702592000
  cancelAtPeriodEnd := false
  quantity := some 1
  priceId := "price_1"
  metadata := some []
  orgId := none
  userId := none
  creationTime := 1700000000000

/-- C1 store: holds only that ten-second-old subscription. -/
def c1Store : Store where
  customers := []
  subscriptions := [c1Sub]
  payments := []
  invoices := []
  checkout_sessions := []

/-- C1 payment intent for the same customer, not tied to any invoice. -/
def c1Intent : PaymentIntentObj where
  id := "pi_1"
  customer := some "cus_1"
  amount := 5000
  currency := "usd"
  status := "succeeded"
  created := 1700000010
  invoice := none
  metadata := some []

/-- C1: the subscription for `cus_1` was created 10 seconds (10000 ms)
before dispatch, well inside the 600-second window, yet dispatching the
`payment_intent.succeeded` event still inserts a payment record: the
objects `listSubscriptions` returns have `_creationTime` destructured away,
so the guard's `sub._creationTime > recentWindowStart` compares `undefined`
and is false for every subscription (and `recentWindowStart` additionally
mixes a seconds-based bound with millisecond timestamps), so the documented
skip never happens. -/
theorem c1_recent_subscription_guard_never_fires :
    c1Sub.stripeCustomerId = "cus_1" ∧
    c1Intent.customer = some "cus_1" ∧
    c1Now - c1Sub.creationTime = 10000 ∧
    (10000 : Int) < RECENT_SUBSCRIPTION_WINDOW_SECONDS * 1000 ∧
    processEvent c1Api c1Now c1Store (.paymentIntentSucceeded c1Intent) =
      .ok { c1Store with payments := [{ stripePaymentIntentId := "pi_1", stripeCustomerId := some "cus_1", amount := 5000, currency := "usd", status := "succeeded", created := 1700000010, metadata := some [], orgId := none, userId := none }] } := by
  refine ⟨rfl, rfl, rfl, by decide, ?_⟩
  decide

end ConvexStripe
